import Mathlib

/-!
Shallow embedding of the rusti execution engine (`src/rusti/exec.rs`).

Machine pointers (LLVM `ModuleRef`, `ValueRef`, engine references, raw
addresses) are modelled as `Nat`, with `0` playing the role of the null
pointer.  `PathBuf`/`OsStr` values are opaque `Nat` handles.  The native
LLVM boundary (`LLVMGetNamedFunction`, `LLVMGetPointerToGlobal`,
`LLVMExecutionEngineRemoveModule`, `LLVMRustLoadDynamicLibrary`, OS-string
decoding) is an abstract environment `NativeEnv` of pure functions, and the
side effects performed against it are recorded as an explicit `NativeEvent`
trace.  The rustc driver (phases 1-4, session error state, the crate store)
is an abstract `Toolchain` record.  Rust panics are modelled as the
`Except.error` branch of `Except PanicPayload _`, with payload constructors
for `errors::FatalError`, `errors::ExplicitBug` and any other panic message.
-/

namespace Rusti

/-- Opaque handle for a `PathBuf` / `OsStr` value. -/
abbrev Path := Nat

/-- `type Deps = Vec<PathBuf>;` -/
abbrev Deps := List Path

/-- `rustc::session::config::Input`: inline text or a file path. -/
inductive Input where
  | str (name : String) (input : String)
  | file (path : Path)
deriving DecidableEq

/-- `impl IntoInput for String`: wraps the text with the name `<input>`. -/
def intoInputString (s : String) : Input := Input.str "<input>" s

/-- `impl IntoInput for PathBuf`. -/
def intoInputPath (p : Path) : Input := Input.file p

/-- `rustc::session::config::OptLevel` (only the cases the engine touches). -/
inductive OptLevel where
  | no
  | defaultLevel
deriving DecidableEq

/-- Crate type requested from the compiler. -/
inductive CrateTypeKind where
  | executable
  | dylib
deriving DecidableEq

/-- `syntax::feature_gate::UnstableFeatures`. -/
inductive UnstableFeaturesKind where
  | disallow
  | allow
deriving DecidableEq

/-- The slice of `rustc::session::config::Options` the engine sets. -/
structure Options where
  maybe_sysroot : Option Path
  search_paths : List String
  optimize : OptLevel
  crate_types : List CrateTypeKind
  unstable_features : UnstableFeaturesKind
deriving DecidableEq

/-- `basic_options()` defaults from rustc. -/
def basic_options : Options :=
  { maybe_sysroot := none
    search_paths := []
    optimize := OptLevel.defaultLevel
    crate_types := [CrateTypeKind.executable]
    unstable_features := UnstableFeaturesKind.disallow }

/-- `build_exec_options`: start from `basic_options()`, set the sysroot,
add each library search path, prefer fast builds, build a dylib, and allow
unstable features. -/
def build_exec_options (sysroot : Path) (libs : List String) : Options :=
  { basic_options with
    maybe_sysroot := some sysroot
    search_paths := basic_options.search_paths ++ libs
    optimize := OptLevel.no
    crate_types := [CrateTypeKind.dylib]
    unstable_features := UnstableFeaturesKind.allow }

/-- Payload of a Rust panic, as classified by `handle_compiler_panic`:
`errors::FatalError`, `errors::ExplicitBug`, or anything else (assertion
messages, `unwrap` failures, ...). -/
inductive PanicPayload where
  | fatalError
  | explicitBug
  | other (msg : String)
deriving DecidableEq

/-- `e.is::<errors::FatalError>()`. -/
def PanicPayload.isFatalError : PanicPayload → Bool
  | PanicPayload.fatalError => true
  | _ => false

/-- `e.is::<errors::ExplicitBug>()`. -/
def PanicPayload.isExplicitBug : PanicPayload → Bool
  | PanicPayload.explicitBug => true
  | _ => false

/-- `CString::new(bytes)`: fails exactly when the byte sequence contains an
interior NUL byte. -/
def cstringNew (bytes : List Nat) : Option (List Nat) :=
  if bytes.contains 0 then none else some bytes

/-- The native LLVM / OS boundary, as pure functions.  A returned `0`
models a null pointer or a failure result. -/
structure NativeEnv where
  getNamedFunction : Nat → List Nat → Nat
  getNamedGlobal : Nat → List Nat → Nat
  getPointerToGlobal : Nat → Nat → Nat
  removeModule : Nat → Nat → Nat
  loadDynamicLibrary : List Nat → Nat
  pathToStr : Path → Option (List Nat)

/-- Side effects performed against the native engine, recorded in order. -/
inductive NativeEvent where
  | loadLibrary (path : Path)
  | addModule (ee : Nat) (llmod : Nat)
  | removeModule (ee : Nat) (llmod : Nat)
  | disposeModule (llmod : Nat)
deriving DecidableEq

/-- `pub struct ExecutionEngine`. -/
structure ExecutionEngine where
  ee : Nat
  modules : List Nat
  lib_paths : List String
  sysroot : Path
deriving DecidableEq

/-- Opaque parsed crate (`syntax::ast::Crate`). -/
abbrev Crate := Nat

/-- Opaque `driver::ExpansionResult`. -/
abbrev Expansion := Nat

/-- Opaque phase-3 context: the `TyCtxt` together with everything the
phase-3 closure receives. -/
abbrev AnalysisCtxt := Nat

/-- Opaque `ty::CrateAnalysis`. -/
abbrev Analysis := Nat

/-- The rustc driver boundary: the four phases and the session state the
engine consults.  `phase2`/`phase3` fail with an error count (`usize`);
`phase1` failure has already emitted its diagnostic. -/
structure Toolchain where
  phase1 : Options → Input → Option Crate
  phase2 : Options → Crate → Except Nat Expansion
  expandedCrate : Expansion → Crate
  phase3 : Options → Expansion → Except Nat AnalysisCtxt
  ctxtAnalysis : AnalysisCtxt → Analysis
  sessErrorsAfterAnalysis : AnalysisCtxt → Bool
  phase4 : AnalysisCtxt → List Nat
  sessErrorsAfterTrans : AnalysisCtxt → Bool
  usedCrates : AnalysisCtxt → List (Nat × Option Path)

/-- `check_compile`: `f().ok()`. -/
def check_compile {R : Type} (r : Except Nat R) : Option R :=
  r.toOption

/-- Effects of `handle_compiler_panic`: whether the generic
internal-error diagnostic was emitted, and whether the captured output
buffer was printed. -/
structure PanicEffects where
  emittedBug : Bool
  flushed : Bool
deriving DecidableEq

/-- `handle_compiler_panic`: when the payload is not `FatalError`, emit the
generic bug diagnostic unless it is `ExplicitBug`, then print the captured
buffer; a `FatalError` payload does nothing at all. -/
def handle_compiler_panic (e : PanicPayload) : PanicEffects :=
  if !e.isFatalError then
    { emittedBug := !e.isExplicitBug, flushed := true }
  else
    { emittedBug := false, flushed := false }

/-- `monitor`: run the task on an isolated worker; a normal completion is
returned as `some`, an abnormal abort is handed to `handle_compiler_panic`
and becomes `none`.  The second component records the panic-handling
effects, if any. -/
def monitor {R : Type} (r : Except PanicPayload R) : Option R × Option PanicEffects :=
  match r with
  | Except.ok a => (some a, none)
  | Except.error e => (none, some (handle_compiler_panic e))

/-- Body of the closure `compile_input` dispatches through `monitor`:
phases 1-4 with the two `abort_if_errors` calls, dependency collection
from `used_crates` (reversed so dependencies come first), and the
single-module assertion. -/
def compileClosure (tc : Toolchain) (input : Input) (sysroot : Path) (libs : List String) :
    Except PanicPayload (Option (Nat × Deps)) :=
  let opts := build_exec_options sysroot libs
  match tc.phase1 opts input with
  | none => Except.ok none
  | some krate =>
    match tc.phase2 opts krate with
    | Except.error _ => Except.ok none
    | Except.ok expn =>
      match tc.phase3 opts expn with
      | Except.error _ => Except.ok none
      | Except.ok ctxt =>
        if tc.sessErrorsAfterAnalysis ctxt then
          Except.error PanicPayload.fatalError
        else
          let trans := tc.phase4 ctxt
          if tc.sessErrorsAfterTrans ctxt then
            Except.error PanicPayload.fatalError
          else
            let crates := tc.usedCrates ctxt
            let deps : Deps := crates.reverse.filterMap (fun c => c.2)
            if h : trans.length = 1 then
              Except.ok (some (trans.get ⟨0, by omega⟩, deps))
            else
              Except.error (PanicPayload.other "assertion failed: trans.modules.len() == 1")

/-- `compile_input`: run the compile closure under `monitor` and flatten
(`r.and_then(|r| r)`). -/
def compile_input (tc : Toolchain) (input : Input) (sysroot : Path) (libs : List String) :
    Option (Nat × Deps) :=
  ((monitor (compileClosure tc input sysroot libs)).1).bind (fun r => r)

/-- Body of the closure `with_analysis` dispatches through `monitor`:
phases 1-3 only, then the caller-supplied inspector applied to the
expanded crate, the type context and the analysis result. -/
def withAnalysisClosure {R : Type} (tc : Toolchain)
    (f : Crate → AnalysisCtxt → Analysis → R) (input : Input) (sysroot : Path)
    (libs : List String) : Except PanicPayload (Option R) :=
  let opts := build_exec_options sysroot libs
  match tc.phase1 opts input with
  | none => Except.ok none
  | some krate =>
    match tc.phase2 opts krate with
    | Except.error _ => Except.ok none
    | Except.ok expn =>
      match tc.phase3 opts expn with
      | Except.error _ => Except.ok none
      | Except.ok ctxt =>
        Except.ok (some (f (tc.expandedCrate expn) ctxt (tc.ctxtAnalysis ctxt)))

/-- Free function `with_analysis`: the analysis closure under `monitor`,
flattened. -/
def with_analysis {R : Type} (tc : Toolchain) (f : Crate → AnalysisCtxt → Analysis → R)
    (input : Input) (sysroot : Path) (libs : List String) : Option R :=
  ((monitor (withAnalysisClosure tc f input sysroot libs)).1).bind (fun r => r)

/-- Scan loop of `get_function`: for each module, look the name up; on a
non-null value ref, take its address from the engine, asserting it is
non-null. -/
def getFunctionLoop (env : NativeEnv) (ee : Nat) (s : List Nat) :
    List Nat → Except PanicPayload (Option Nat)
  | [] => Except.ok none
  | m :: ms =>
    let fv := env.getNamedFunction m s
    if fv ≠ 0 then
      let fp := env.getPointerToGlobal ee fv
      if fp ≠ 0 then Except.ok (some fp)
      else Except.error (PanicPayload.other "assertion failed: !fp.is_null()")
    else getFunctionLoop env ee s ms

/-- Scan loop of `get_global`, identical but for `LLVMGetNamedGlobal`. -/
def getGlobalLoop (env : NativeEnv) (ee : Nat) (s : List Nat) :
    List Nat → Except PanicPayload (Option Nat)
  | [] => Except.ok none
  | m :: ms =>
    let gv := env.getNamedGlobal m s
    if gv ≠ 0 then
      let gp := env.getPointerToGlobal ee gv
      if gp ≠ 0 then Except.ok (some gp)
      else Except.error (PanicPayload.other "assertion failed: !gp.is_null()")
    else getGlobalLoop env ee s ms

/-- `ExecutionEngine::get_function`: convert the name to a C string
(`unwrap` panics on interior NUL), then scan `self.modules.iter().rev()`. -/
def ExecutionEngine.get_function (st : ExecutionEngine) (env : NativeEnv)
    (name : List Nat) : Except PanicPayload (Option Nat) :=
  match cstringNew name with
  | none => Except.error (PanicPayload.other "called Result::unwrap on an Err value: NulError")
  | some s => getFunctionLoop env st.ee s st.modules.reverse

/-- `ExecutionEngine::get_global`. -/
def ExecutionEngine.get_global (st : ExecutionEngine) (env : NativeEnv)
    (name : List Nat) : Except PanicPayload (Option Nat) :=
  match cstringNew name with
  | none => Except.error (PanicPayload.other "called Result::unwrap on an Err value: NulError")
  | some s => getGlobalLoop env st.ee s st.modules.reverse

/-- `ExecutionEngine::load_deps`: for each dependency path in order,
decode it (panic on non-UTF-8), build a C string (`unwrap`), and load the
dynamic library, panicking when the loader reports failure.  Returns the
trace of load events. -/
def load_deps (env : NativeEnv) : Deps → Except PanicPayload (List NativeEvent)
  | [] => Except.ok []
  | p :: ps =>
    match env.pathToStr p with
    | none => Except.error (PanicPayload.other "Could not convert crate path to UTF-8 string")
    | some s =>
      match cstringNew s with
      | none => Except.error (PanicPayload.other "called Result::unwrap on an Err value: NulError")
      | some cs =>
        if env.loadDynamicLibrary cs = 0 then
          Except.error (PanicPayload.other "Failed to load crate")
        else
          match load_deps env ps with
          | Except.error e => Except.error e
          | Except.ok evs => Except.ok (NativeEvent.loadLibrary p :: evs)

/-- `ExecutionEngine::add_module`: compile; on failure return `None` with
the state untouched; on success load the dependencies (panics are fatal),
push the module onto `self.modules`, and register it with the native
engine.  Returns the produced handle, the new state and the native-event
trace. -/
def ExecutionEngine.add_module (st : ExecutionEngine) (env : NativeEnv) (tc : Toolchain)
    (input : Input) : Except PanicPayload (Option Nat × ExecutionEngine × List NativeEvent) :=
  match compile_input tc input st.sysroot st.lib_paths with
  | none => Except.ok (none, st, [])
  | some (llmod, deps) =>
    match load_deps env deps with
    | Except.error e => Except.error e
    | Except.ok evs =>
      Except.ok (some llmod,
        { st with modules := st.modules ++ [llmod] },
        evs ++ [NativeEvent.addModule st.ee llmod])

/-- `ExecutionEngine::remove_module`: find the handle by position; panic
when absent; otherwise remove it from the list, unregister it from the
native engine (asserting the result is `1`) and dispose it. -/
def ExecutionEngine.remove_module (st : ExecutionEngine) (env : NativeEnv)
    (llmod : Nat) : Except PanicPayload (ExecutionEngine × List NativeEvent) :=
  match st.modules.findIdx? (fun p => p == llmod) with
  | some i =>
    let res := env.removeModule st.ee llmod
    if res = 1 then
      Except.ok ({ st with modules := st.modules.eraseIdx i },
        [NativeEvent.removeModule st.ee llmod, NativeEvent.disposeModule llmod])
    else
      Except.error (PanicPayload.other "assertion failed: res == 1")
  | none => Except.error (PanicPayload.other "Module not contained in ExecutionEngine")

/-- `ExecutionEngine::with_analysis`: delegates to the free function with
the engine-owned sysroot and search paths; `self` is taken immutably. -/
def ExecutionEngine.with_analysis {R : Type} (st : ExecutionEngine) (tc : Toolchain)
    (f : Crate → AnalysisCtxt → Analysis → R) (input : Input) : Option R :=
  Rusti.with_analysis tc f input st.sysroot st.lib_paths

/-! ### Helper lemmas -/

theorem cstringNew_of_not_mem {bytes : List Nat} (h : 0 ∉ bytes) :
    cstringNew bytes = some bytes := by
  simp [cstringNew, h]

theorem cstringNew_of_mem {bytes : List Nat} (h : 0 ∈ bytes) :
    cstringNew bytes = none := by
  simp [cstringNew, h]

theorem getFunctionLoop_spec (env : NativeEnv) (ee : Nat) (s : List Nat)
    (ms : List Nat)
    (hnn : ∀ m ∈ ms, env.getNamedFunction m s ≠ 0 →
      env.getPointerToGlobal ee (env.getNamedFunction m s) ≠ 0) :
    getFunctionLoop env ee s ms =
      Except.ok ((ms.find? (fun m => env.getNamedFunction m s != 0)).map
        (fun m => env.getPointerToGlobal ee (env.getNamedFunction m s))) := by
  induction ms with
  | nil => rfl
  | cons m ms ih =>
    by_cases h : env.getNamedFunction m s = 0
    · have : (env.getNamedFunction m s != 0) = false := by simp [h]
      simp only [getFunctionLoop, List.find?_cons, this, h]
      simpa using ih (fun x hx => hnn x (List.mem_cons_of_mem _ hx))
    · have hp := hnn m (List.mem_cons_self _ _) h
      have : (env.getNamedFunction m s != 0) = true := by simp [h]
      simp only [getFunctionLoop, List.find?_cons, this]
      simp [h, hp]

theorem getGlobalLoop_spec (env : NativeEnv) (ee : Nat) (s : List Nat)
    (ms : List Nat)
    (hnn : ∀ m ∈ ms, env.getNamedGlobal m s ≠ 0 →
      env.getPointerToGlobal ee (env.getNamedGlobal m s) ≠ 0) :
    getGlobalLoop env ee s ms =
      Except.ok ((ms.find? (fun m => env.getNamedGlobal m s != 0)).map
        (fun m => env.getPointerToGlobal ee (env.getNamedGlobal m s))) := by
  induction ms with
  | nil => rfl
  | cons m ms ih =>
    by_cases h : env.getNamedGlobal m s = 0
    · have : (env.getNamedGlobal m s != 0) = false := by simp [h]
      simp only [getGlobalLoop, List.find?_cons, this, h]
      simpa using ih (fun x hx => hnn x (List.mem_cons_of_mem _ hx))
    · have hp := hnn m (List.mem_cons_self _ _) h
      have : (env.getNamedGlobal m s != 0) = true := by simp [h]
      simp only [getGlobalLoop, List.find?_cons, this]
      simp [h, hp]

theorem getFunctionLoop_ok_some_ne_zero {env : NativeEnv} {ee : Nat} {s : List Nat}
    {ms : List Nat} {a : Nat}
    (h : getFunctionLoop env ee s ms = Except.ok (some a)) : a ≠ 0 := by
  induction ms with
  | nil => simp [getFunctionLoop] at h
  | cons m ms ih =>
    by_cases hf : env.getNamedFunction m s = 0
    · exact ih (by simpa [getFunctionLoop, hf] using h)
    · by_cases hp : env.getPointerToGlobal ee (env.getNamedFunction m s) = 0
      · simp [getFunctionLoop, hf, hp] at h
      · have : some (env.getPointerToGlobal ee (env.getNamedFunction m s)) = some a := by
          simpa [getFunctionLoop, hf, hp] using h
        intro ha
        exact hp (by rw [Option.some_inj.mp this, ha])

theorem getGlobalLoop_ok_some_ne_zero {env : NativeEnv} {ee : Nat} {s : List Nat}
    {ms : List Nat} {a : Nat}
    (h : getGlobalLoop env ee s ms = Except.ok (some a)) : a ≠ 0 := by
  induction ms with
  | nil => simp [getGlobalLoop] at h
  | cons m ms ih =>
    by_cases hf : env.getNamedGlobal m s = 0
    · exact ih (by simpa [getGlobalLoop, hf] using h)
    · by_cases hp : env.getPointerToGlobal ee (env.getNamedGlobal m s) = 0
      · simp [getGlobalLoop, hf, hp] at h
      · have : some (env.getPointerToGlobal ee (env.getNamedGlobal m s)) = some a := by
          simpa [getGlobalLoop, hf, hp] using h
        intro ha
        exact hp (by rw [Option.some_inj.mp this, ha])

theorem mem_split_first {m : Nat} :
    ∀ {l : List Nat}, m ∈ l → ∃ l1 l2, l = l1 ++ m :: l2 ∧ m ∉ l1 := by
  intro l hm
  induction l with
  | nil => cases hm
  | cons x xs ih =>
    by_cases hx : x = m
    · exact ⟨[], xs, by simp [hx], by simp⟩
    · have hm' : m ∈ xs := by
        cases List.mem_cons.mp hm with
        | inl h => exact absurd h.symm hx
        | inr h => exact h
      obtain ⟨l1, l2, hsplit, hnot⟩ := ih hm'
      exact ⟨x :: l1, l2, by simp [hsplit], by
        intro hc
        cases List.mem_cons.mp hc with
        | inl h => exact hx h.symm
        | inr h => exact hnot h⟩

theorem findIdx?_beq_split (m : Nat) (l2 : List Nat) :
    ∀ (l1 : List Nat) (i : Nat), m ∉ l1 →
      List.findIdx? (fun p => p == m) (l1 ++ m :: l2) i = some (i + l1.length) := by
  intro l1
  induction l1 with
  | nil =>
    intro i _
    simp [List.findIdx?_cons]
  | cons x l1 ih =>
    intro i hnot
    have hx : (x == m) = false := by
      simp only [beq_eq_false_iff_ne]
      intro hc
      exact hnot (by simp [hc])
    have hrec := ih (i + 1) (fun hc => hnot (List.mem_cons_of_mem _ hc))
    simp only [List.cons_append, List.findIdx?_cons, hx, if_false, hrec]
    simp [List.length_cons]
    omega

theorem findIdx?_beq_none_of_not_mem (m : Nat) (l : List Nat) (h : m ∉ l) :
    List.findIdx? (fun p => p == m) l = none := by
  rw [List.findIdx?_eq_none_iff]
  intro x hx
  simp only [beq_eq_false_iff_ne]
  intro hc
  exact h (hc ▸ hx)

theorem eraseIdx_append_cons (l1 l2 : List Nat) (m : Nat) :
    (l1 ++ m :: l2).eraseIdx l1.length = l1 ++ l2 := by
  induction l1 with
  | nil => rfl
  | cons x l1 ih =>
    simpa [List.eraseIdx] using ih

theorem remove_module_found (st : ExecutionEngine) (env : NativeEnv) (m : Nat)
    (l1 l2 : List Nat) (hsplit : st.modules = l1 ++ m :: l2) (hl1 : m ∉ l1)
    (hres : env.removeModule st.ee m = 1) :
    st.remove_module env m =
      Except.ok ({ st with modules := l1 ++ l2 },
        [NativeEvent.removeModule st.ee m, NativeEvent.disposeModule m]) := by
  unfold ExecutionEngine.remove_module
  rw [hsplit]
  rw [show List.findIdx? (fun p => p == m) (l1 ++ m :: l2) = some l1.length from by
    simpa using findIdx?_beq_split m l2 l1 0 hl1]
  simp [hres, eraseIdx_append_cons]

theorem remove_module_not_found (st : ExecutionEngine) (env : NativeEnv) (m : Nat)
    (h : m ∉ st.modules) :
    st.remove_module env m =
      Except.error (PanicPayload.other "Module not contained in ExecutionEngine") := by
  unfold ExecutionEngine.remove_module
  rw [findIdx?_beq_none_of_not_mem m st.modules h]

theorem load_deps_ok_events {env : NativeEnv} :
    ∀ {deps : Deps} {evs : List NativeEvent},
      load_deps env deps = Except.ok evs → evs = deps.map NativeEvent.loadLibrary := by
  intro deps
  induction deps with
  | nil =>
    intro evs h
    simp only [load_deps] at h
    injection h with h2
    rw [← h2]
    rfl
  | cons p ps ih =>
    intro evs h
    cases hp : env.pathToStr p with
    | none => simp [load_deps, hp] at h
    | some s =>
      cases hc : cstringNew s with
      | none => simp [load_deps, hp, hc] at h
      | some cs =>
        by_cases hl : env.loadDynamicLibrary cs = 0
        · simp [load_deps, hp, hc, hl] at h
        · cases hrec : load_deps env ps with
          | error e => simp [load_deps, hp, hc, hl, hrec] at h
          | ok evs' =>
            simp only [load_deps, hp, hc, hl, if_false, hrec] at h
            have h3 : NativeEvent.loadLibrary p :: evs' = evs := by
              simpa using h
            rw [← h3, ih hrec]
            simp

/-! ### Concrete sample data used by the closed witness statements -/

/-- A concrete native environment: modules `1` and `2` define the looked-up
function, module `2` also defines a global; addresses are value + 100; the
native removal always reports success; library loading always succeeds. -/
def envA : NativeEnv :=
  { getNamedFunction := fun m _ => if m = 1 ∨ m = 2 then m + 10 else 0
    getNamedGlobal := fun m _ => if m = 2 then m + 20 else 0
    getPointerToGlobal := fun _ v => v + 100
    removeModule := fun _ _ => 1
    loadDynamicLibrary := fun _ => 1
    pathToStr := fun p => some [p + 1] }

/-- A concrete engine state holding modules `1` then `2`. -/
def stA : ExecutionEngine :=
  { ee := 0, modules := [1, 2], lib_paths := [], sysroot := 0 }

/-- A second concrete engine state with no modules and a different engine
reference but the same sysroot and search paths as `stA`. -/
def stB : ExecutionEngine :=
  { ee := 9, modules := [], lib_paths := [], sysroot := 0 }

/-- A concrete toolchain on which every phase succeeds, code generation
yields exactly the one module `7`, and three crates are discovered, two
of them with dynamic-library paths `3` then `4`. -/
def tcOk : Toolchain :=
  { phase1 := fun _ _ => some 0
    phase2 := fun _ _ => Except.ok 0
    expandedCrate := fun expn => expn + 1
    phase3 := fun _ _ => Except.ok 0
    ctxtAnalysis := fun ctxt => ctxt + 2
    sessErrorsAfterAnalysis := fun _ => false
    phase4 := fun _ => [7]
    sessErrorsAfterTrans := fun _ => false
    usedCrates := fun _ => [(0, some 3), (1, none), (2, some 4)] }

/-- A concrete toolchain whose parse phase fails on every input. -/
def tcFail : Toolchain :=
  { tcOk with phase1 := fun _ _ => none }

/-- A concrete toolchain identical to `tcOk` except that code generation
produces zero modules. -/
def tcZero : Toolchain :=
  { tcOk with phase4 := fun _ => [] }

/-! ### Claim theorems -/

/-- C9: for every lookup name containing an interior NUL byte, both
`get_function` and `get_global` panic on the `CString::new(..).unwrap()`
instead of returning `None`; the no-match result `None` is only reachable
for names that are valid C strings. -/
theorem lookup_interior_nul_panics (env : NativeEnv) (st : ExecutionEngine)
    (name : List Nat) (h : 0 ∈ name) :
    st.get_function env name =
      Except.error (PanicPayload.other "called Result::unwrap on an Err value: NulError") ∧
    st.get_global env name =
      Except.error (PanicPayload.other "called Result::unwrap on an Err value: NulError") ∧
    (∀ name2 : List Nat, st.get_function env name2 = Except.ok none → 0 ∉ name2) ∧
    (∀ name2 : List Nat, st.get_global env name2 = Except.ok none → 0 ∉ name2) := by
  refine ⟨?_, ?_, ?_, ?_⟩
  · simp [ExecutionEngine.get_function, cstringNew_of_mem h]
  · simp [ExecutionEngine.get_global, cstringNew_of_mem h]
  · intro name2 hok hmem
    simp [ExecutionEngine.get_function, cstringNew_of_mem hmem] at hok
  · intro name2 hok hmem
    simp [ExecutionEngine.get_global, cstringNew_of_mem hmem] at hok

/-- Closed witness for C9 at the one-byte name `[0]`. -/
theorem lookup_interior_nul_panics_witness :
    (0 ∈ [0]) ∧
    (stA.get_function envA [0] =
      Except.error (PanicPayload.other "called Result::unwrap on an Err value: NulError") ∧
    stA.get_global envA [0] =
      Except.error (PanicPayload.other "called Result::unwrap on an Err value: NulError") ∧
    (∀ name2 : List Nat, stA.get_function envA name2 = Except.ok none → 0 ∉ name2) ∧
    (∀ name2 : List Nat, stA.get_global envA name2 = Except.ok none → 0 ∉ name2)) :=
  ⟨by decide, lookup_interior_nul_panics envA stA [0] (by decide)⟩

/-- C10: whenever `get_function` or `get_global` returns a found address,
that address is non-null, because a null result from
`LLVMGetPointerToGlobal` trips the assertion instead of being returned. -/
theorem lookup_found_address_nonnull (env : NativeEnv) (st : ExecutionEngine)
    (name : List Nat) (a : Nat) :
    (st.get_function env name = Except.ok (some a) → a ≠ 0) ∧
    (st.get_global env name = Except.ok (some a) → a ≠ 0) := by
  constructor
  · intro h
    cases hc : cstringNew name with
    | none => simp [ExecutionEngine.get_function, hc] at h
    | some s =>
      simp only [ExecutionEngine.get_function, hc] at h
      exact getFunctionLoop_ok_some_ne_zero h
  · intro h
    cases hc : cstringNew name with
    | none => simp [ExecutionEngine.get_global, hc] at h
    | some s =>
      simp only [ExecutionEngine.get_global, hc] at h
      exact getGlobalLoop_ok_some_ne_zero h

/-- Closed witness for C10: in `envA`/`stA` the name `[5]` is found in
module 2 at address 112, and the theorem yields `112 ≠ 0`. -/
theorem lookup_found_address_nonnull_witness :
    (stA.get_function envA [5] = Except.ok (some 112)) ∧ (112 : Nat) ≠ 0 :=
  ⟨rfl, (lookup_found_address_nonnull envA stA [5] 112).1 rfl⟩

/-- C2: when compilation fails, `add_module` returns `None` and the
`ExecutionEngine` is unchanged, so every symbol resolvable before the
failed call resolves to the same address afterward. -/
theorem add_module_failure_isolation (env : NativeEnv) (tc : Toolchain)
    (st : ExecutionEngine) (input : Input)
    (h : compile_input tc input st.sysroot st.lib_paths = none) :
    st.add_module env tc input = Except.ok (none, st, []) ∧
    (∀ st2 evs, st.add_module env tc input = Except.ok (none, st2, evs) →
      st2.modules = st.modules ∧
      (∀ name, st2.get_function env name = st.get_function env name) ∧
      (∀ name, st2.get_global env name = st.get_global env name)) := by
  have h1 : st.add_module env tc input = Except.ok (none, st, []) := by
    simp [ExecutionEngine.add_module, h]
  refine ⟨h1, ?_⟩
  intro st2 evs h2
  rw [h1] at h2
  injection h2 with h4
  have h3 : st = st2 := congrArg (fun x => x.2.1) h4
  rw [← h3]
  exact ⟨rfl, fun _ => rfl, fun _ => rfl⟩

/-- Closed witness for C2: parsing fails under `tcFail`, and `add_module`
leaves `stA` untouched. -/
theorem add_module_failure_isolation_witness :
    (compile_input tcFail (intoInputString "fn f(") stA.sysroot stA.lib_paths = none) ∧
    (stA.add_module envA tcFail (intoInputString "fn f(") = Except.ok (none, stA, []) ∧
    (∀ st2 evs,
      stA.add_module envA tcFail (intoInputString "fn f(") = Except.ok (none, st2, evs) →
      st2.modules = stA.modules ∧
      (∀ name, st2.get_function envA name = stA.get_function envA name) ∧
      (∀ name, st2.get_global envA name = stA.get_global envA name))) :=
  ⟨rfl, add_module_failure_isolation envA tcFail stA (intoInputString "fn f(") rfl⟩

/-- C5: after successful phases 1-3 with a clean session, code generation
yielding a number of native modules other than one makes the compilation
task abort on the assertion (a panic), not return a recoverable `Failure`
(`Except.ok none`). -/
theorem compile_single_module_invariant (tc : Toolchain) (input : Input)
    (sysroot : Path) (libs : List String) (krate : Crate) (expn : Expansion)
    (ctxt : AnalysisCtxt)
    (h1 : tc.phase1 (build_exec_options sysroot libs) input = some krate)
    (h2 : tc.phase2 (build_exec_options sysroot libs) krate = Except.ok expn)
    (h3 : tc.phase3 (build_exec_options sysroot libs) expn = Except.ok ctxt)
    (h4 : tc.sessErrorsAfterAnalysis ctxt = false)
    (h5 : tc.sessErrorsAfterTrans ctxt = false)
    (h6 : (tc.phase4 ctxt).length ≠ 1) :
    compileClosure tc input sysroot libs =
      Except.error (PanicPayload.other "assertion failed: trans.modules.len() == 1") ∧
    (∀ r : Option (Nat × Deps), compileClosure tc input sysroot libs ≠ Except.ok r) := by
  have hmain : compileClosure tc input sysroot libs =
      Except.error (PanicPayload.other "assertion failed: trans.modules.len() == 1") := by
    simp only [compileClosure, h1, h2, h3, h4, h5]
    simp [h6]
  refine ⟨hmain, fun r hr => ?_⟩
  rw [hmain] at hr
  cases hr

/-- Closed witness for C5: `tcZero` generates zero modules and the compile
closure aborts on the assertion. -/
theorem compile_single_module_invariant_witness :
    (tcZero.phase1 (build_exec_options 0 []) (intoInputString "fn g() {}") = some 0) ∧
    (tcZero.phase2 (build_exec_options 0 []) 0 = Except.ok 0) ∧
    (tcZero.phase3 (build_exec_options 0 []) 0 = Except.ok 0) ∧
    (tcZero.sessErrorsAfterAnalysis 0 = false) ∧
    (tcZero.sessErrorsAfterTrans 0 = false) ∧
    ((tcZero.phase4 0).length ≠ 1) ∧
    (compileClosure tcZero (intoInputString "fn g() {}") 0 [] =
      Except.error (PanicPayload.other "assertion failed: trans.modules.len() == 1") ∧
    (∀ r : Option (Nat × Deps),
      compileClosure tcZero (intoInputString "fn g() {}") 0 [] ≠ Except.ok r)) :=
  ⟨rfl, rfl, rfl, rfl, rfl, by decide,
    compile_single_module_invariant tcZero (intoInputString "fn g() {}") 0 [] 0 0 0
      rfl rfl rfl rfl rfl (by decide)⟩

/-- C4: a successful compilation pairs the generated module with the
externally-linked library paths in the reverse of their discovery order;
in particular a path discovered later (a dependency) appears in the
`DependencySet` before one discovered earlier (its dependent). -/
theorem success_deps_reverse_discovery_order (tc : Toolchain) (input : Input)
    (sysroot : Path) (libs : List String) (krate : Crate) (expn : Expansion)
    (ctxt : AnalysisCtxt) (m : Nat)
    (h1 : tc.phase1 (build_exec_options sysroot libs) input = some krate)
    (h2 : tc.phase2 (build_exec_options sysroot libs) krate = Except.ok expn)
    (h3 : tc.phase3 (build_exec_options sysroot libs) expn = Except.ok ctxt)
    (h4 : tc.sessErrorsAfterAnalysis ctxt = false)
    (h5 : tc.sessErrorsAfterTrans ctxt = false)
    (h6 : tc.phase4 ctxt = [m]) :
    compile_input tc input sysroot libs =
      some (m, ((tc.usedCrates ctxt).filterMap (fun c => c.2)).reverse) ∧
    (∀ (l1 l2 l3 : List (Nat × Option Path)) (na nb : Nat) (a b : Path),
      tc.usedCrates ctxt = l1 ++ (na, some a) :: l2 ++ (nb, some b) :: l3 →
      ∃ d1 d2 d3, ((tc.usedCrates ctxt).filterMap (fun c => c.2)).reverse =
        d1 ++ b :: d2 ++ a :: d3) := by
  constructor
  · have hclo : compileClosure tc input sysroot libs =
        Except.ok (some (m, ((tc.usedCrates ctxt).filterMap (fun c => c.2)).reverse)) := by
      simp only [compileClosure, h1, h2, h3, h4, h5, h6]
      simp [List.filterMap_reverse, h6]
    simp [compile_input, monitor, hclo]
  · intro l1 l2 l3 na nb a b hsplit
    refine ⟨((l3.filterMap (fun c => c.2))).reverse,
      ((l2.filterMap (fun c => c.2))).reverse,
      ((l1.filterMap (fun c => c.2))).reverse, ?_⟩
    rw [hsplit]
    simp [List.filterMap_append, List.reverse_append]

/-- Closed witness for C4: under `tcOk` the discovery order is path `3`
then path `4`, and the returned dependency list is `[4, 3]`. -/
theorem success_deps_reverse_discovery_order_witness :
    (tcOk.phase1 (build_exec_options 0 []) (intoInputString "use a;") = some 0) ∧
    (tcOk.phase2 (build_exec_options 0 []) 0 = Except.ok 0) ∧
    (tcOk.phase3 (build_exec_options 0 []) 0 = Except.ok 0) ∧
    (tcOk.sessErrorsAfterAnalysis 0 = false) ∧
    (tcOk.sessErrorsAfterTrans 0 = false) ∧
    (tcOk.phase4 0 = [7]) ∧
    (compile_input tcOk (intoInputString "use a;") 0 [] =
      some (7, ((tcOk.usedCrates 0).filterMap (fun c => c.2)).reverse) ∧
    (∀ (l1 l2 l3 : List (Nat × Option Path)) (na nb : Nat) (a b : Path),
      tcOk.usedCrates 0 = l1 ++ (na, some a) :: l2 ++ (nb, some b) :: l3 →
      ∃ d1 d2 d3, ((tcOk.usedCrates 0).filterMap (fun c => c.2)).reverse =
        d1 ++ b :: d2 ++ a :: d3)) :=
  ⟨rfl, rfl, rfl, rfl, rfl, rfl,
    success_deps_reverse_discovery_order tcOk (intoInputString "use a;") 0 [] 0 0 0 7
      rfl rfl rfl rfl rfl rfl⟩

/-- C6: removing a handle that is not registered aborts with a panic
rather than no-oping; removing a registered handle (with the native engine
reporting success) removes its first occurrence from the module list,
unregisters it from the native engine and disposes its native resources,
and under no duplicate handles the handle is gone from the list. -/
theorem remove_module_contract (env : NativeEnv) (st : ExecutionEngine) (llmod : Nat) :
    (llmod ∉ st.modules →
      st.remove_module env llmod =
        Except.error (PanicPayload.other "Module not contained in ExecutionEngine")) ∧
    (llmod ∈ st.modules → env.removeModule st.ee llmod = 1 →
      ∃ l1 l2, st.modules = l1 ++ llmod :: l2 ∧ llmod ∉ l1 ∧
        st.remove_module env llmod =
          Except.ok ({ st with modules := l1 ++ l2 },
            [NativeEvent.removeModule st.ee llmod, NativeEvent.disposeModule llmod]) ∧
        (st.modules.Nodup → llmod ∉ l1 ++ l2)) := by
  constructor
  · exact remove_module_not_found st env llmod
  · intro hmem hres
    obtain ⟨l1, l2, hsplit, hnot⟩ := mem_split_first hmem
    refine ⟨l1, l2, hsplit, hnot,
      remove_module_found st env llmod l1 l2 hsplit hnot hres, ?_⟩
    intro hnd
    rw [hsplit, List.nodup_append] at hnd
    obtain ⟨_, h2', hdisj⟩ := hnd
    have hl2 : llmod ∉ l2 := (List.nodup_cons.mp h2').1
    intro hc
    cases List.mem_append.mp hc with
    | inl hcl => exact hnot hcl
    | inr hcr => exact hl2 hcr

/-- Closed witness for C6: in `stA` removing the unknown handle `5` panics,
while removing the registered handle `2` succeeds. -/
theorem remove_module_contract_witness :
    (stA.remove_module envA 5 =
      Except.error (PanicPayload.other "Module not contained in ExecutionEngine")) ∧
    (∃ l1 l2, stA.modules = l1 ++ 2 :: l2 ∧ 2 ∉ l1 ∧
      stA.remove_module envA 2 =
        Except.ok ({ stA with modules := l1 ++ l2 },
          [NativeEvent.removeModule stA.ee 2, NativeEvent.disposeModule 2]) ∧
      (stA.modules.Nodup → 2 ∉ l1 ++ l2)) :=
  ⟨(remove_module_contract envA stA 5).1 (by decide),
   (remove_module_contract envA stA 2).2 (by decide) rfl⟩

/-- C7: on a successful compilation, `add_module` performs every
dependency load event before the module is appended to the list and
registered with the native engine; a dependency load failure propagates
as a fatal panic (never as a `None` return); under the compile-success
hypothesis `add_module` can never return `None`. -/
theorem add_module_loads_deps_before_register (env : NativeEnv) (tc : Toolchain)
    (st : ExecutionEngine) (input : Input) (llmod : Nat) (deps : Deps)
    (hc : compile_input tc input st.sysroot st.lib_paths = some (llmod, deps)) :
    (∀ e, load_deps env deps = Except.error e →
      st.add_module env tc input = Except.error e) ∧
    (∀ evs, load_deps env deps = Except.ok evs →
      st.add_module env tc input =
        Except.ok (some llmod, { st with modules := st.modules ++ [llmod] },
          deps.map NativeEvent.loadLibrary ++ [NativeEvent.addModule st.ee llmod])) ∧
    (∀ st2 evs2, st.add_module env tc input ≠ Except.ok (none, st2, evs2)) := by
  refine ⟨?_, ?_, ?_⟩
  · intro e he
    simp [ExecutionEngine.add_module, hc, he]
  · intro evs he
    have hevs := load_deps_ok_events he
    rw [hevs] at he
    simp [ExecutionEngine.add_module, hc, he]
  · intro st2 evs2 hcontra
    cases hl : load_deps env deps with
    | error e => simp [ExecutionEngine.add_module, hc, hl] at hcontra
    | ok evs => simp [ExecutionEngine.add_module, hc, hl] at hcontra

/-- Closed witness for C7: `tcOk` compiles to module `7` with dependencies
`[4, 3]`, both load under `envA`, and the event trace loads them before
registering the module. -/
theorem add_module_loads_deps_before_register_witness :
    (compile_input tcOk (intoInputString "use a;") stA.sysroot stA.lib_paths =
      some (7, [4, 3])) ∧
    (load_deps envA [4, 3] =
      Except.ok [NativeEvent.loadLibrary 4, NativeEvent.loadLibrary 3]) ∧
    (stA.add_module envA tcOk (intoInputString "use a;") =
      Except.ok (some 7, { stA with modules := stA.modules ++ [7] },
        ([4, 3] : Deps).map NativeEvent.loadLibrary ++ [NativeEvent.addModule stA.ee 7])) :=
  ⟨rfl, rfl,
    (add_module_loads_deps_before_register envA tcOk stA (intoInputString "use a;")
      7 [4, 3] rfl).2.1 [NativeEvent.loadLibrary 4, NativeEvent.loadLibrary 3] rfl⟩

/-- C8: `with_analysis` runs phases 1-3 only and depends neither on the
code-generation components of the toolchain nor on the module list of the
engine (so it cannot touch either); it returns the inspector result when
phases 1-3 succeed and `none` when any of them fails. -/
theorem with_analysis_phases_only_frame {R : Type} (tc tc2 : Toolchain)
    (st st2 : ExecutionEngine) (f : Crate → AnalysisCtxt → Analysis → R)
    (input : Input)
    (hsys : st.sysroot = st2.sysroot) (hlib : st.lib_paths = st2.lib_paths)
    (hp1 : tc.phase1 = tc2.phase1) (hp2 : tc.phase2 = tc2.phase2)
    (hp3 : tc.phase3 = tc2.phase3) (hec : tc.expandedCrate = tc2.expandedCrate)
    (han : tc.ctxtAnalysis = tc2.ctxtAnalysis) :
    st.with_analysis tc f input = st2.with_analysis tc2 f input ∧
    (tc.phase1 (build_exec_options st.sysroot st.lib_paths) input = none →
      st.with_analysis tc f input = none) ∧
    (∀ krate n, tc.phase1 (build_exec_options st.sysroot st.lib_paths) input = some krate →
      tc.phase2 (build_exec_options st.sysroot st.lib_paths) krate = Except.error n →
      st.with_analysis tc f input = none) ∧
    (∀ krate expn n,
      tc.phase1 (build_exec_options st.sysroot st.lib_paths) input = some krate →
      tc.phase2 (build_exec_options st.sysroot st.lib_paths) krate = Except.ok expn →
      tc.phase3 (build_exec_options st.sysroot st.lib_paths) expn = Except.error n →
      st.with_analysis tc f input = none) ∧
    (∀ krate expn ctxt,
      tc.phase1 (build_exec_options st.sysroot st.lib_paths) input = some krate →
      tc.phase2 (build_exec_options st.sysroot st.lib_paths) krate = Except.ok expn →
      tc.phase3 (build_exec_options st.sysroot st.lib_paths) expn = Except.ok ctxt →
      st.with_analysis tc f input =
        some (f (tc.expandedCrate expn) ctxt (tc.ctxtAnalysis ctxt))) := by
  refine ⟨?_, ?_, ?_, ?_, ?_⟩
  · simp only [ExecutionEngine.with_analysis, Rusti.with_analysis, withAnalysisClosure,
      hsys, hlib, hp1, hp2, hp3, hec, han]
  · intro h1
    simp [ExecutionEngine.with_analysis, Rusti.with_analysis, withAnalysisClosure,
      monitor, h1]
  · intro krate n h1 h2
    simp [ExecutionEngine.with_analysis, Rusti.with_analysis, withAnalysisClosure,
      monitor, h1, h2]
  · intro krate expn n h1 h2 h3
    simp [ExecutionEngine.with_analysis, Rusti.with_analysis, withAnalysisClosure,
      monitor, h1, h2, h3]
  · intro krate expn ctxt h1 h2 h3
    simp [ExecutionEngine.with_analysis, Rusti.with_analysis, withAnalysisClosure,
      monitor, h1, h2, h3]

/-- Closed witness for C8: `tcOk` and `tcZero` differ only in code
generation, `stA` and `stB` differ in module list and engine reference, and
`with_analysis` agrees on them, returning the inspector result. -/
theorem with_analysis_phases_only_frame_witness :
    (stA.sysroot = stB.sysroot) ∧ (stA.lib_paths = stB.lib_paths) ∧
    (tcOk.phase1 (build_exec_options stA.sysroot stA.lib_paths) (intoInputString "1 + 1") =
      some 0) ∧
    (tcOk.phase2 (build_exec_options stA.sysroot stA.lib_paths) 0 = Except.ok 0) ∧
    (tcOk.phase3 (build_exec_options stA.sysroot stA.lib_paths) 0 = Except.ok 0) ∧
    (stA.with_analysis tcOk (fun c t a => (c, t, a)) (intoInputString "1 + 1") =
      stB.with_analysis tcZero (fun c t a => (c, t, a)) (intoInputString "1 + 1")) ∧
    (stA.with_analysis tcOk (fun c t a => (c, t, a)) (intoInputString "1 + 1") =
      some (tcOk.expandedCrate 0, 0, tcOk.ctxtAnalysis 0)) :=
  ⟨rfl, rfl, rfl, rfl, rfl,
    (with_analysis_phases_only_frame tcOk tcZero stA stB
      (fun c t a => (c, t, a)) (intoInputString "1 + 1")
      rfl rfl rfl rfl rfl rfl rfl).1,
    (with_analysis_phases_only_frame tcOk tcZero stA stB
      (fun c t a => (c, t, a)) (intoInputString "1 + 1")
      rfl rfl rfl rfl rfl rfl rfl).2.2.2.2 0 0 0 rfl rfl rfl⟩

/-- C3 counterexample: an abort carrying the fatal-compiler-error marker
does NOT flush the captured buffer — `print!` sits inside the
not-`FatalError` branch of `handle_compiler_panic` — contradicting the
claim that recognized markers still flush. -/
theorem fatal_abort_does_not_flush :
    ¬ (handle_compiler_panic PanicPayload.fatalError).flushed = true := by
  decide

/-- C3 (amended): on an abnormal worker abort the Supervisor returns
nothing and classifies the payload: a fatal-compiler-error marker
suppresses both the generic report and the buffer flush; an
explicit-internal-assertion marker suppresses the report but flushes; an
unrecognized payload emits the generic internal-error report and flushes. -/
theorem monitor_panic_classification (e : PanicPayload) :
    (monitor (Except.error e : Except PanicPayload (Option (Nat × Deps)))).1 = none ∧
    (monitor (Except.error e : Except PanicPayload (Option (Nat × Deps)))).2 =
      some (handle_compiler_panic e) ∧
    (handle_compiler_panic e).emittedBug = (!e.isFatalError && !e.isExplicitBug) ∧
    (handle_compiler_panic e).flushed = !e.isFatalError := by
  refine ⟨rfl, rfl, ?_, ?_⟩ <;> cases e <;> rfl

/-- C1: `get_function` and `get_global` scan the registered modules in
reverse insertion order and return the address bound to the first module
defining the name; they return `none` when no registered module defines
it.  In particular, with modules `ms ++ [m1, m2]` (M1 added before M2,
both defining the name) the result is M2's address, and after
`remove_module m2` it is M1's address. -/
theorem get_function_reverse_scan_shadowing (env : NativeEnv) (st : ExecutionEngine)
    (name : List Nat) (h0 : 0 ∉ name)
    (hnnF : ∀ m ∈ st.modules, env.getNamedFunction m name ≠ 0 →
      env.getPointerToGlobal st.ee (env.getNamedFunction m name) ≠ 0)
    (hnnG : ∀ m ∈ st.modules, env.getNamedGlobal m name ≠ 0 →
      env.getPointerToGlobal st.ee (env.getNamedGlobal m name) ≠ 0) :
    st.get_function env name =
      Except.ok ((st.modules.reverse.find? (fun m => env.getNamedFunction m name != 0)).map
        (fun m => env.getPointerToGlobal st.ee (env.getNamedFunction m name))) ∧
    st.get_global env name =
      Except.ok ((st.modules.reverse.find? (fun m => env.getNamedGlobal m name != 0)).map
        (fun m => env.getPointerToGlobal st.ee (env.getNamedGlobal m name))) ∧
    ((∀ m ∈ st.modules, env.getNamedFunction m name = 0) →
      st.get_function env name = Except.ok none) ∧
    (∀ ms m1 m2, st.modules = ms ++ [m1, m2] → env.getNamedFunction m2 name ≠ 0 →
      st.get_function env name =
        Except.ok (some (env.getPointerToGlobal st.ee (env.getNamedFunction m2 name)))) ∧
    (∀ ms m1 m2, st.modules = ms ++ [m1, m2] → m2 ∉ ms ++ [m1] →
      env.removeModule st.ee m2 = 1 →
      ∀ st2 evs, st.remove_module env m2 = Except.ok (st2, evs) →
      env.getNamedFunction m1 name ≠ 0 →
      st2.get_function env name =
        Except.ok (some (env.getPointerToGlobal st.ee (env.getNamedFunction m1 name)))) := by
  have hs : cstringNew name = some name := cstringNew_of_not_mem h0
  have hgf : st.get_function env name =
      Except.ok ((st.modules.reverse.find? (fun m => env.getNamedFunction m name != 0)).map
        (fun m => env.getPointerToGlobal st.ee (env.getNamedFunction m name))) := by
    simp only [ExecutionEngine.get_function, hs]
    exact getFunctionLoop_spec env st.ee name st.modules.reverse
      (fun m hm => hnnF m (List.mem_reverse.mp hm))
  have hgg : st.get_global env name =
      Except.ok ((st.modules.reverse.find? (fun m => env.getNamedGlobal m name != 0)).map
        (fun m => env.getPointerToGlobal st.ee (env.getNamedGlobal m name))) := by
    simp only [ExecutionEngine.get_global, hs]
    exact getGlobalLoop_spec env st.ee name st.modules.reverse
      (fun m hm => hnnG m (List.mem_reverse.mp hm))
  refine ⟨hgf, hgg, ?_, ?_, ?_⟩
  · intro hall
    rw [hgf]
    have hnone : st.modules.reverse.find? (fun m => env.getNamedFunction m name != 0) = none := by
      rw [List.find?_eq_none]
      intro x hx
      simp [hall x (List.mem_reverse.mp hx)]
    rw [hnone]
    rfl
  · intro ms m1 m2 hst hdef
    rw [hgf, hst]
    have hpred : (env.getNamedFunction m2 name != 0) = true := by simp [hdef]
    simp [List.find?_cons, hpred]
  · intro ms m1 m2 hst hm2notin hres st2 evs hrem hm1def
    have hsplit : st.modules = (ms ++ [m1]) ++ m2 :: [] := by simp [hst]
    have hr := remove_module_found st env m2 (ms ++ [m1]) [] hsplit hm2notin hres
    rw [hrem] at hr
    injection hr with hr2
    have hst2 : st2 = { st with modules := (ms ++ [m1]) ++ [] } :=
      congrArg (fun x => x.1) hr2
    have hst2' : st2 = { st with modules := ms ++ [m1] } := by
      rw [hst2]
      simp
    subst hst2'
    have hnn2 : ∀ m ∈ (ms ++ [m1]).reverse, env.getNamedFunction m name ≠ 0 →
        env.getPointerToGlobal st.ee (env.getNamedFunction m name) ≠ 0 := by
      intro m hm hne
      have hmem : m ∈ ms ++ [m1] := List.mem_reverse.mp hm
      have hmem2 : m ∈ st.modules := by
        rw [hst]
        rcases List.mem_append.mp hmem with h | h
        · exact List.mem_append.mpr (Or.inl h)
        · simp only [List.mem_singleton] at h
          simp [h]
      exact hnnF m hmem2 hne
    simp only [ExecutionEngine.get_function, hs]
    rw [getFunctionLoop_spec env st.ee name (ms ++ [m1]).reverse hnn2]
    have hpred1 : (env.getNamedFunction m1 name != 0) = true := by simp [hm1def]
    simp [List.find?_cons, hpred1]

/-- Closed witness for C1: in `envA`/`stA` both modules define the name
`[5]`; lookup returns module 2's address `112`; after removing module 2 it
returns module 1's address `111`. -/
theorem get_function_reverse_scan_shadowing_witness :
    (0 ∉ [5]) ∧
    (∀ m ∈ stA.modules, envA.getNamedFunction m [5] ≠ 0 →
      envA.getPointerToGlobal stA.ee (envA.getNamedFunction m [5]) ≠ 0) ∧
    (∀ m ∈ stA.modules, envA.getNamedGlobal m [5] ≠ 0 →
      envA.getPointerToGlobal stA.ee (envA.getNamedGlobal m [5]) ≠ 0) ∧
    (stA.get_function envA [5] =
      Except.ok ((stA.modules.reverse.find? (fun m => envA.getNamedFunction m [5] != 0)).map
        (fun m => envA.getPointerToGlobal stA.ee (envA.getNamedFunction m [5]))) ∧
    stA.get_global envA [5] =
      Except.ok ((stA.modules.reverse.find? (fun m => envA.getNamedGlobal m [5] != 0)).map
        (fun m => envA.getPointerToGlobal stA.ee (envA.getNamedGlobal m [5]))) ∧
    ((∀ m ∈ stA.modules, envA.getNamedFunction m [5] = 0) →
      stA.get_function envA [5] = Except.ok none) ∧
    (∀ ms m1 m2, stA.modules = ms ++ [m1, m2] → envA.getNamedFunction m2 [5] ≠ 0 →
      stA.get_function envA [5] =
        Except.ok (some (envA.getPointerToGlobal stA.ee (envA.getNamedFunction m2 [5])))) ∧
    (∀ ms m1 m2, stA.modules = ms ++ [m1, m2] → m2 ∉ ms ++ [m1] →
      envA.removeModule stA.ee m2 = 1 →
      ∀ st2 evs, stA.remove_module envA m2 = Except.ok (st2, evs) →
      envA.getNamedFunction m1 [5] ≠ 0 →
      st2.get_function envA [5] =
        Except.ok (some (envA.getPointerToGlobal stA.ee (envA.getNamedFunction m1 [5]))))) :=
  ⟨by decide, by decide, by decide,
    get_function_reverse_scan_shadowing envA stA [5] (by decide) (by decide) (by decide)⟩

end Rusti
